import Mathlib

/-!
Verification of the ROW (right-of-way) risk-assessment workflow driver
(`basic_workflow.py`) and of the five-stage orchestration contract of the
ROW risk-management system.

The development embeds, as executable Lean definitions:
* the Python value domain handled by `convert_numpy_to_json` (nested
  dicts, lists, tuples, sets, numpy arrays, numpy scalars) and that
  conversion function itself;
* the corridor-loading and validation logic of `main` (existence check,
  parser outcome, empty-dataset check, CRS defaulting);
* the result-export phase of `main` (`save_risk_results`,
  `save_vegetation_results`, `save_priority_results`,
  `save_interactive_map`), including its exception flow;
* the five-stage dependency-chain orchestrator (`run_full_workflow` of
  the `ROWRiskAssessment` core), modelled from the specification since
  its module is not part of the example-script sources.
-/

namespace RowRisk

/-- A numpy scalar element of a numeric array buffer: integer or floating
dtype.  `ndarray.tolist()` converts each element to the corresponding
plain Python scalar. -/
inductive NpScalar : Type where
  | i (n : Int)
  | f (q : Rat)
deriving Repr, DecidableEq

/-- The plain Python value obtained from a numpy scalar by `.tolist()` /
`.item()`. -/
def NpScalar.toPlain : NpScalar → Int ⊕ Rat
  | .i n => Sum.inl n
  | .f q => Sum.inr q

/-- The Python value domain that `convert_numpy_to_json` operates on:
`None`, `bool`, `int`, `float`, `str`, `list`, `dict` (string keys),
`tuple`, `set`, `numpy.ndarray` (a numeric buffer), and the numpy scalar
wrappers `np.integer`, `np.floating`, `np.bool_`. -/
inductive PyVal : Type where
  | pynone : PyVal
  | pybool (b : Bool) : PyVal
  | pyint (n : Int) : PyVal
  | pyfloat (q : Rat) : PyVal
  | pystr (s : String) : PyVal
  | pylist (xs : List PyVal) : PyVal
  | pydict (es : List (String × PyVal)) : PyVal
  | pytuple (xs : List PyVal) : PyVal
  | pyset (xs : List PyVal) : PyVal
  | ndarray (xs : List NpScalar) : PyVal
  | npint (n : Int) : PyVal
  | npfloat (q : Rat) : PyVal
  | npbool (b : Bool) : PyVal

/-- `NpScalar.toPlain` reflected into `PyVal`: the element of the plain
list produced by `ndarray.tolist()`. -/
def NpScalar.toPyVal : NpScalar → PyVal
  | .i n => .pyint n
  | .f q => .pyfloat q

mutual

/-- `convert_numpy_to_json` from `basic_workflow.py`: branches tested in
source order (`dict`, `list`, `np.ndarray`, `(np.integer, np.floating)`,
`np.bool_`, else pass through unchanged). -/
def convert_numpy_to_json : PyVal → PyVal
  | .pydict es => .pydict (convertDict es)
  | .pylist xs => .pylist (convertList xs)
  | .ndarray xs => .pylist (xs.map NpScalar.toPyVal)
  | .npint n => .pyint n
  | .npfloat q => .pyfloat q
  | .npbool b => .pybool b
  | v => v

/-- The dict comprehension `{k: convert_numpy_to_json(v) for k, v in
obj.items()}`: keys pass through, values are converted, entry order kept. -/
def convertDict : List (String × PyVal) → List (String × PyVal)
  | [] => []
  | (k, v) :: es => (k, convert_numpy_to_json v) :: convertDict es

/-- The list comprehension `[convert_numpy_to_json(item) for item in
obj]`: elements converted in order. -/
def convertList : List PyVal → List PyVal
  | [] => []
  | x :: xs => convert_numpy_to_json x :: convertList xs

end

mutual

/-- Whether a value is already in `NormalizedValue` form: null, boolean,
plain number (int or float), string, list of normalized values, or
string-keyed dict of normalized values. -/
def isNormalized : PyVal → Bool
  | .pynone => true
  | .pybool _ => true
  | .pyint _ => true
  | .pyfloat _ => true
  | .pystr _ => true
  | .pylist xs => isNormalizedList xs
  | .pydict es => isNormalizedDict es
  | .pytuple _ => false
  | .pyset _ => false
  | .ndarray _ => false
  | .npint _ => false
  | .npfloat _ => false
  | .npbool _ => false

/-- All elements of a list are normalized. -/
def isNormalizedList : List PyVal → Bool
  | [] => true
  | x :: xs => isNormalized x && isNormalizedList xs

/-- All values of a dict are normalized. -/
def isNormalizedDict : List (String × PyVal) → Bool
  | [] => true
  | (_, v) :: es => isNormalized v && isNormalizedDict es

end

/-- The kinds that `convert_numpy_to_json` does NOT rewrite: everything
except `dict`, `list`, `ndarray` and the numpy scalar wrappers.  These
fall into the final `else: return obj` branch. -/
def isPassThroughKind : PyVal → Bool
  | .pydict _ => false
  | .pylist _ => false
  | .ndarray _ => false
  | .npint _ => false
  | .npfloat _ => false
  | .npbool _ => false
  | _ => true

theorem convertList_eq_map (xs : List PyVal) :
    convertList xs = xs.map convert_numpy_to_json := by
  induction xs with
  | nil => rfl
  | cons x xs ih => simp [convertList, ih]

theorem convertDict_eq_map (es : List (String × PyVal)) :
    convertDict es = es.map (fun kv => (kv.1, convert_numpy_to_json kv.2)) := by
  induction es with
  | nil => rfl
  | cons kv es ih => cases kv; simp [convertDict, ih]

mutual

theorem convert_eq_self_of_normalized :
    ∀ (x : PyVal), isNormalized x = true → convert_numpy_to_json x = x
  | .pynone, _ => rfl
  | .pybool _, _ => rfl
  | .pyint _, _ => rfl
  | .pyfloat _, _ => rfl
  | .pystr _, _ => rfl
  | .pylist xs, h => by
      have h' : isNormalizedList xs = true := by simpa [isNormalized] using h
      simpa [convert_numpy_to_json] using
        congrArg PyVal.pylist (convertList_eq_self_of_normalized xs h')
  | .pydict es, h => by
      have h' : isNormalizedDict es = true := by simpa [isNormalized] using h
      simpa [convert_numpy_to_json] using
        congrArg PyVal.pydict (convertDict_eq_self_of_normalized es h')
  | .pytuple _, h => by simp [isNormalized] at h
  | .pyset _, h => by simp [isNormalized] at h
  | .ndarray _, h => by simp [isNormalized] at h
  | .npint _, h => by simp [isNormalized] at h
  | .npfloat _, h => by simp [isNormalized] at h
  | .npbool _, h => by simp [isNormalized] at h

theorem convertList_eq_self_of_normalized :
    ∀ (xs : List PyVal), isNormalizedList xs = true → convertList xs = xs
  | [], _ => rfl
  | x :: xs, h => by
      have h1 : isNormalized x = true := by
        simpa using (Bool.and_eq_true_iff.mp (by simpa [isNormalizedList] using h)).1
      have h2 : isNormalizedList xs = true := by
        simpa using (Bool.and_eq_true_iff.mp (by simpa [isNormalizedList] using h)).2
      simp [convertList, convert_eq_self_of_normalized x h1,
        convertList_eq_self_of_normalized xs h2]

theorem convertDict_eq_self_of_normalized :
    ∀ (es : List (String × PyVal)), isNormalizedDict es = true → convertDict es = es
  | [], _ => rfl
  | (k, v) :: es, h => by
      have h1 : isNormalized v = true := by
        simpa using (Bool.and_eq_true_iff.mp (by simpa [isNormalizedDict] using h)).1
      have h2 : isNormalizedDict es = true := by
        simpa using (Bool.and_eq_true_iff.mp (by simpa [isNormalizedDict] using h)).2
      simp [convertDict, convert_eq_self_of_normalized v h1,
        convertDict_eq_self_of_normalized es h2]

end

/-- Whether a value is a `dict` or a `list` node, the only containers
`convert_numpy_to_json` recurses into. -/
def isDictOrList : PyVal → Bool
  | .pydict _ => true
  | .pylist _ => true
  | _ => false

/-- Input/output correspondence asserting that every mapping node of the
input keeps its key sequence and every list node keeps its element count,
with corresponding children related recursively; nodes that are neither
dicts nor lists are unconstrained. -/
inductive StructPreserved : PyVal → PyVal → Prop where
  | dict (es fs : List (String × PyVal))
      (hkeys : es.map Prod.fst = fs.map Prod.fst)
      (hvals : ∀ p ∈ es.zip fs, StructPreserved p.1.2 p.2.2) :
      StructPreserved (.pydict es) (.pydict fs)
  | list (xs ys : List PyVal) (hlen : xs.length = ys.length)
      (helts : ∀ p ∈ xs.zip ys, StructPreserved p.1 p.2) :
      StructPreserved (.pylist xs) (.pylist ys)
  | other (v w : PyVal) (hv : isDictOrList v = false) : StructPreserved v w

mutual

theorem struct_preserved_convert :
    ∀ (v : PyVal), StructPreserved v (convert_numpy_to_json v)
  | .pydict es => by
      have hkeys : es.map Prod.fst = (convertDict es).map Prod.fst := by
        simp [convertDict_eq_map]
      exact (convert_numpy_to_json.eq_def (.pydict es)) ▸
        StructPreserved.dict es (convertDict es) hkeys
          (struct_preserved_convertDict es)
  | .pylist xs => by
      have hlen : xs.length = (convertList xs).length := by
        simp [convertList_eq_map]
      exact (convert_numpy_to_json.eq_def (.pylist xs)) ▸
        StructPreserved.list xs (convertList xs) hlen
          (struct_preserved_convertList xs)
  | .pytuple xs => StructPreserved.other _ _ rfl
  | .pyset xs => StructPreserved.other _ _ rfl
  | .pynone => StructPreserved.other _ _ rfl
  | .pybool _ => StructPreserved.other _ _ rfl
  | .pyint _ => StructPreserved.other _ _ rfl
  | .pyfloat _ => StructPreserved.other _ _ rfl
  | .pystr _ => StructPreserved.other _ _ rfl
  | .ndarray _ => StructPreserved.other _ _ rfl
  | .npint _ => StructPreserved.other _ _ rfl
  | .npfloat _ => StructPreserved.other _ _ rfl
  | .npbool _ => StructPreserved.other _ _ rfl

theorem struct_preserved_convertList :
    ∀ (xs : List PyVal), ∀ p ∈ xs.zip (convertList xs), StructPreserved p.1 p.2
  | [], p, hp => absurd hp (by simp [convertList])
  | x :: xs, p, hp => by
      rw [show convertList (x :: xs) = convert_numpy_to_json x :: convertList xs
        from rfl] at hp
      rcases List.mem_cons.mp hp with h | h
      · subst h; exact struct_preserved_convert x
      · exact struct_preserved_convertList xs p h

theorem struct_preserved_convertDict :
    ∀ (es : List (String × PyVal)),
      ∀ p ∈ es.zip (convertDict es), StructPreserved p.1.2 p.2.2
  | [], p, hp => absurd hp (by simp [convertDict])
  | (k, v) :: es, p, hp => by
      rw [show convertDict ((k, v) :: es)
          = (k, convert_numpy_to_json v) :: convertDict es from rfl] at hp
      rcases List.mem_cons.mp hp with h | h
      · subst h; exact struct_preserved_convert v
      · exact struct_preserved_convertDict es p h

end

/-- C3: `convert_numpy_to_json` is a total function on the value domain
and applies exactly the documented rules: dicts recurse entry-wise
preserving keys, lists recurse element-wise preserving order, numpy
arrays flatten to lists of plain numbers, numpy scalar wrappers unwrap
to plain numbers/booleans, and every other value is returned unchanged. -/
theorem convert_numpy_to_json_rules :
    (∀ es : List (String × PyVal),
        convert_numpy_to_json (.pydict es)
          = .pydict (es.map (fun kv => (kv.1, convert_numpy_to_json kv.2))))
  ∧ (∀ xs : List PyVal,
        convert_numpy_to_json (.pylist xs) = .pylist (xs.map convert_numpy_to_json))
  ∧ (∀ xs : List NpScalar,
        convert_numpy_to_json (.ndarray xs) = .pylist (xs.map NpScalar.toPyVal))
  ∧ (∀ n : Int, convert_numpy_to_json (.npint n) = .pyint n)
  ∧ (∀ q : Rat, convert_numpy_to_json (.npfloat q) = .pyfloat q)
  ∧ (∀ b : Bool, convert_numpy_to_json (.npbool b) = .pybool b)
  ∧ (∀ v : PyVal, isPassThroughKind v = true → convert_numpy_to_json v = v) := by
  refine ⟨?_, ?_, ?_, ?_, ?_, ?_, ?_⟩
  · intro es; simp [convert_numpy_to_json, convertDict_eq_map]
  · intro xs; simp [convert_numpy_to_json, convertList_eq_map]
  · intro xs; rfl
  · intro n; rfl
  · intro q; rfl
  · intro b; rfl
  · intro v hv; cases v <;> first | rfl | simp [isPassThroughKind] at hv

/-- Witness for C3: the pass-through rule applied at the concrete string
value. -/
theorem convert_numpy_to_json_rules_witness :
    isPassThroughKind (.pystr "EPSG:4326") = true ∧
      convert_numpy_to_json (.pystr "EPSG:4326") = .pystr "EPSG:4326" :=
  ⟨rfl, convert_numpy_to_json_rules.2.2.2.2.2.2 (.pystr "EPSG:4326") rfl⟩

/-- C7: `convert_numpy_to_json` is idempotent on values already in
`NormalizedValue` form. -/
theorem convert_numpy_to_json_idempotent (x : PyVal)
    (h : isNormalized x = true) :
    convert_numpy_to_json (convert_numpy_to_json x) = convert_numpy_to_json x := by
  simp only [convert_eq_self_of_normalized x h]

/-- Witness for C7 at a concrete nested normalized value. -/
theorem convert_numpy_to_json_idempotent_witness :
    isNormalized (.pydict [("a", .pylist [.pyint 1, .pynone])]) = true ∧
      convert_numpy_to_json (convert_numpy_to_json
          (.pydict [("a", .pylist [.pyint 1, .pynone])]))
        = convert_numpy_to_json (.pydict [("a", .pylist [.pyint 1, .pynone])]) :=
  ⟨rfl, convert_numpy_to_json_idempotent
    (.pydict [("a", .pylist [.pyint 1, .pynone])]) rfl⟩

/-- C8: on every nested input, `convert_numpy_to_json` preserves the key
sequence of every mapping node and the element count and order of every
list node, at every level of nesting. -/
theorem convert_numpy_to_json_preserves_structure (v : PyVal) :
    StructPreserved v (convert_numpy_to_json v) :=
  struct_preserved_convert v

/-- C10: `convert_numpy_to_json` recurses only into exact `dict` and
`list` values: tuples and sets are returned unchanged, so numpy arrays or
numpy scalars nested inside them are not converted. -/
theorem convert_numpy_to_json_tuple_set_unchanged :
    (∀ xs : List PyVal, convert_numpy_to_json (.pytuple xs) = .pytuple xs)
  ∧ (∀ xs : List PyVal, convert_numpy_to_json (.pyset xs) = .pyset xs)
  ∧ convert_numpy_to_json (.pytuple [.ndarray [.i 1], .npint 2])
      = .pytuple [.ndarray [.i 1], .npint 2] :=
  ⟨fun _ => rfl, fun _ => rfl, rfl⟩

/-- The five pipeline stages, in execution order. -/
inductive Stage : Type where
  | data | vegetation | risk | priorities | reports
deriving Repr, DecidableEq

/-- Position of a stage in the fixed execution order. -/
def stageIdx : Stage → Nat
  | .data => 0
  | .vegetation => 1
  | .risk => 2
  | .priorities => 3
  | .reports => 4

/-- The stage's name, the key under which its result is stored. -/
def stageName : Stage → String
  | .data => "data"
  | .vegetation => "vegetation"
  | .risk => "risk"
  | .priorities => "priorities"
  | .reports => "reports"

/-- The fixed execution order {data, vegetation, risk, priorities,
reports}. -/
def stageOrder : List Stage := [.data, .vegetation, .risk, .priorities, .reports]

/-- Modelled from the spec: the strict linear dependency chain of §4.2
(vegetation requires data; risk requires vegetation; priorities requires
risk; reports requires priorities), part of the `ROWRiskAssessment` core
module that is not among the example-script sources. -/
def requiredPredecessor : Stage → Option Stage
  | .data => none
  | .vegetation => some .data
  | .risk => some .vegetation
  | .priorities => some .risk
  | .reports => some .priorities

/-- A stage's recorded outcome: `Success(value)`, `Skipped(reason)` or
`Failed(error)`. -/
inductive StageResult (V : Type) : Type where
  | success (v : V)
  | skipped (reason : String)
  | failed (err : String)
deriving Repr, DecidableEq

/-- What the external analysis backend of a stage does when invoked:
return a result value or raise. -/
inductive BackendOutcome (V : Type) : Type where
  | ok (v : V)
  | raises (e : String)
deriving Repr, DecidableEq

/-- Whether a stage result is `Success`. -/
def StageResult.isSuccess {V : Type} : StageResult V → Bool
  | .success _ => true
  | _ => false

/-- Modelled from the spec: invoking a stage's external backend (§4.2) —
any exception is caught and converted to `Failed(error)`; the Boolean
records that the backend was invoked. -/
def invokeBackend {V : Type} (backend : Stage → BackendOutcome V)
    (s : Stage) : StageResult V × Bool :=
  match backend s with
  | .ok v => (.success v, true)
  | .raises e => (.failed e, true)

/-- Look up a stage's recorded result in the bundle trace. -/
def lookupResult {V : Type} (bundle : List (Stage × StageResult V × Bool))
    (s : Stage) : Option (StageResult V) :=
  (bundle.find? (fun e => e.1 == s)).map (fun e => e.2.1)

/-- Modelled from the spec: the StageRunner of §4.2.  A stage whose
required predecessor's result is not `Success` returns
`Skipped("missing dependency: <name>")` without invoking the external
backend; otherwise the backend is invoked. -/
def runStage {V : Type} (backend : Stage → BackendOutcome V)
    (bundle : List (Stage × StageResult V × Bool)) (s : Stage) :
    StageResult V × Bool :=
  match requiredPredecessor s with
  | some p =>
      match lookupResult bundle p with
      | some r =>
          if r.isSuccess then invokeBackend backend s
          else (.skipped ("missing dependency: " ++ stageName p), false)
      | none => (.skipped ("missing dependency: " ++ stageName p), false)
  | none => invokeBackend backend s

/-- Modelled from the spec: the WorkflowOrchestrator loop of §4.3 —
stages execute strictly in order, each result is appended to the bundle
as it completes, and no stage aborts the remaining sequence. -/
def runStages {V : Type} (backend : Stage → BackendOutcome V) :
    List Stage → List (Stage × StageResult V × Bool) →
      List (Stage × StageResult V × Bool)
  | [], acc => acc
  | s :: rest, acc => runStages backend rest (acc ++ [(s, runStage backend acc s)])

/-- Modelled from the spec: `run_full_workflow` of the `ROWRiskAssessment`
core — runs the five stages in order over an empty initial bundle. -/
def run_full_workflow {V : Type} (backend : Stage → BackendOutcome V) :
    List (Stage × StageResult V × Bool) :=
  runStages backend stageOrder []

/-- The result recorded for a stage by a full workflow run. -/
def bundleResult {V : Type} (backend : Stage → BackendOutcome V)
    (s : Stage) : Option (StageResult V) :=
  lookupResult (run_full_workflow backend) s

/-- Whether the backend of a stage was invoked during a full workflow
run. -/
def bundleInvoked {V : Type} (backend : Stage → BackendOutcome V)
    (s : Stage) : Option Bool :=
  ((run_full_workflow backend).find? (fun e => e.1 == s)).map (fun e => e.2.2)

/-- Derived closed form of the data entry of a full run. -/
def wfData {V : Type} (backend : Stage → BackendOutcome V) :
    StageResult V × Bool :=
  invokeBackend backend .data

/-- Derived closed form of the vegetation entry of a full run. -/
def wfVegetation {V : Type} (backend : Stage → BackendOutcome V) :
    StageResult V × Bool :=
  if (wfData backend).1.isSuccess then invokeBackend backend .vegetation
  else (.skipped "missing dependency: data", false)

/-- Derived closed form of the risk entry of a full run. -/
def wfRisk {V : Type} (backend : Stage → BackendOutcome V) :
    StageResult V × Bool :=
  if (wfVegetation backend).1.isSuccess then invokeBackend backend .risk
  else (.skipped "missing dependency: vegetation", false)

/-- Derived closed form of the priorities entry of a full run. -/
def wfPriorities {V : Type} (backend : Stage → BackendOutcome V) :
    StageResult V × Bool :=
  if (wfRisk backend).1.isSuccess then invokeBackend backend .priorities
  else (.skipped "missing dependency: risk", false)

/-- Derived closed form of the reports entry of a full run. -/
def wfReports {V : Type} (backend : Stage → BackendOutcome V) :
    StageResult V × Bool :=
  if (wfPriorities backend).1.isSuccess then invokeBackend backend .reports
  else (.skipped "missing dependency: priorities", false)

/-- The full run records exactly the five derived entries, in stage
order. -/
theorem run_full_workflow_unfold {V : Type} (backend : Stage → BackendOutcome V) :
    run_full_workflow backend =
      [(.data, wfData backend), (.vegetation, wfVegetation backend),
       (.risk, wfRisk backend), (.priorities, wfPriorities backend),
       (.reports, wfReports backend)] := by
  rfl

theorem bundleResult_data {V : Type} (backend : Stage → BackendOutcome V) :
    bundleResult backend .data = some (wfData backend).1 := rfl

theorem bundleResult_vegetation {V : Type} (backend : Stage → BackendOutcome V) :
    bundleResult backend .vegetation = some (wfVegetation backend).1 := rfl

theorem bundleResult_risk {V : Type} (backend : Stage → BackendOutcome V) :
    bundleResult backend .risk = some (wfRisk backend).1 := rfl

theorem bundleResult_priorities {V : Type} (backend : Stage → BackendOutcome V) :
    bundleResult backend .priorities = some (wfPriorities backend).1 := rfl

theorem bundleResult_reports {V : Type} (backend : Stage → BackendOutcome V) :
    bundleResult backend .reports = some (wfReports backend).1 := rfl

theorem bundleInvoked_vegetation {V : Type} (backend : Stage → BackendOutcome V) :
    bundleInvoked backend .vegetation = some (wfVegetation backend).2 := rfl

theorem bundleInvoked_risk {V : Type} (backend : Stage → BackendOutcome V) :
    bundleInvoked backend .risk = some (wfRisk backend).2 := rfl

theorem bundleInvoked_priorities {V : Type} (backend : Stage → BackendOutcome V) :
    bundleInvoked backend .priorities = some (wfPriorities backend).2 := rfl

theorem bundleInvoked_reports {V : Type} (backend : Stage → BackendOutcome V) :
    bundleInvoked backend .reports = some (wfReports backend).2 := rfl

theorem isSuccess_false_of_not_success {V : Type} (r : StageResult V)
    (h : ∀ v, r ≠ .success v) : r.isSuccess = false := by
  cases r with
  | success v => exact absurd rfl (h v)
  | skipped reason => rfl
  | failed err => rfl

theorem not_success_of_eq_skipped {V : Type} (o : Option (StageResult V))
    (reason : String) (h : o = some (.skipped reason)) :
    ∀ v, o ≠ some (.success v) := by
  intro v hv
  rw [h] at hv
  exact StageResult.noConfusion (Option.some.inj hv)

theorem not_failed_of_eq_skipped {V : Type} (o : Option (StageResult V))
    (reason : String) (h : o = some (.skipped reason)) :
    ∀ e, o ≠ some (.failed e) := by
  intro e he
  rw [h] at he
  exact StageResult.noConfusion (Option.some.inj he)

theorem vegetation_skips {V : Type} (backend : Stage → BackendOutcome V)
    (h : ∀ v : V, bundleResult backend .data ≠ some (.success v)) :
    bundleResult backend .vegetation = some (.skipped "missing dependency: data")
      ∧ bundleInvoked backend .vegetation = some false := by
  have hs : (wfData backend).1.isSuccess = false :=
    isSuccess_false_of_not_success _ (fun v hv =>
      h v (by rw [bundleResult_data, hv]))
  constructor
  · rw [bundleResult_vegetation]
    simp [wfVegetation, hs]
  · rw [bundleInvoked_vegetation]
    simp [wfVegetation, hs]

theorem risk_skips {V : Type} (backend : Stage → BackendOutcome V)
    (h : ∀ v : V, bundleResult backend .vegetation ≠ some (.success v)) :
    bundleResult backend .risk = some (.skipped "missing dependency: vegetation")
      ∧ bundleInvoked backend .risk = some false := by
  have hs : (wfVegetation backend).1.isSuccess = false :=
    isSuccess_false_of_not_success _ (fun v hv =>
      h v (by rw [bundleResult_vegetation, hv]))
  constructor
  · rw [bundleResult_risk]
    simp [wfRisk, hs]
  · rw [bundleInvoked_risk]
    simp [wfRisk, hs]

theorem priorities_skips {V : Type} (backend : Stage → BackendOutcome V)
    (h : ∀ v : V, bundleResult backend .risk ≠ some (.success v)) :
    bundleResult backend .priorities = some (.skipped "missing dependency: risk")
      ∧ bundleInvoked backend .priorities = some false := by
  have hs : (wfRisk backend).1.isSuccess = false :=
    isSuccess_false_of_not_success _ (fun v hv =>
      h v (by rw [bundleResult_risk, hv]))
  constructor
  · rw [bundleResult_priorities]
    simp [wfPriorities, hs]
  · rw [bundleInvoked_priorities]
    simp [wfPriorities, hs]

theorem reports_skips {V : Type} (backend : Stage → BackendOutcome V)
    (h : ∀ v : V, bundleResult backend .priorities ≠ some (.success v)) :
    bundleResult backend .reports = some (.skipped "missing dependency: priorities")
      ∧ bundleInvoked backend .reports = some false := by
  have hs : (wfPriorities backend).1.isSuccess = false :=
    isSuccess_false_of_not_success _ (fun v hv =>
      h v (by rw [bundleResult_priorities, hv]))
  constructor
  · rw [bundleResult_reports]
    simp [wfReports, hs]
  · rw [bundleInvoked_reports]
    simp [wfReports, hs]

/-- C1: in every run, if stage `i` of the linear dependency chain does
not produce a `Success` result, then every stage `j` after `i` is
recorded as `Skipped` with the missing-dependency reason naming its
required predecessor, its external backend is not invoked, and it is
never recorded as `Failed`. -/
theorem workflow_dependency_chain_skip {V : Type}
    (backend : Stage → BackendOutcome V) (i j : Stage)
    (hij : stageIdx i < stageIdx j)
    (hi : ∀ v : V, bundleResult backend i ≠ some (.success v)) :
    ∃ p, requiredPredecessor j = some p ∧
      bundleResult backend j
        = some (.skipped ("missing dependency: " ++ stageName p)) ∧
      bundleInvoked backend j = some false ∧
      ∀ e, bundleResult backend j ≠ some (.failed e) := by
  cases i <;> cases j <;>
    first
      | exact absurd hij (by decide)
      | skip
  case data.vegetation =>
    have h1 := vegetation_skips backend hi
    exact ⟨.data, rfl, h1.1, h1.2, not_failed_of_eq_skipped _ _ h1.1⟩
  case data.risk =>
    have h1 := vegetation_skips backend hi
    have h2 := risk_skips backend (not_success_of_eq_skipped _ _ h1.1)
    exact ⟨.vegetation, rfl, h2.1, h2.2, not_failed_of_eq_skipped _ _ h2.1⟩
  case data.priorities =>
    have h1 := vegetation_skips backend hi
    have h2 := risk_skips backend (not_success_of_eq_skipped _ _ h1.1)
    have h3 := priorities_skips backend (not_success_of_eq_skipped _ _ h2.1)
    exact ⟨.risk, rfl, h3.1, h3.2, not_failed_of_eq_skipped _ _ h3.1⟩
  case data.reports =>
    have h1 := vegetation_skips backend hi
    have h2 := risk_skips backend (not_success_of_eq_skipped _ _ h1.1)
    have h3 := priorities_skips backend (not_success_of_eq_skipped _ _ h2.1)
    have h4 := reports_skips backend (not_success_of_eq_skipped _ _ h3.1)
    exact ⟨.priorities, rfl, h4.1, h4.2, not_failed_of_eq_skipped _ _ h4.1⟩
  case vegetation.risk =>
    have h2 := risk_skips backend hi
    exact ⟨.vegetation, rfl, h2.1, h2.2, not_failed_of_eq_skipped _ _ h2.1⟩
  case vegetation.priorities =>
    have h2 := risk_skips backend hi
    have h3 := priorities_skips backend (not_success_of_eq_skipped _ _ h2.1)
    exact ⟨.risk, rfl, h3.1, h3.2, not_failed_of_eq_skipped _ _ h3.1⟩
  case vegetation.reports =>
    have h2 := risk_skips backend hi
    have h3 := priorities_skips backend (not_success_of_eq_skipped _ _ h2.1)
    have h4 := reports_skips backend (not_success_of_eq_skipped _ _ h3.1)
    exact ⟨.priorities, rfl, h4.1, h4.2, not_failed_of_eq_skipped _ _ h4.1⟩
  case risk.priorities =>
    have h3 := priorities_skips backend hi
    exact ⟨.risk, rfl, h3.1, h3.2, not_failed_of_eq_skipped _ _ h3.1⟩
  case risk.reports =>
    have h3 := priorities_skips backend hi
    have h4 := reports_skips backend (not_success_of_eq_skipped _ _ h3.1)
    exact ⟨.priorities, rfl, h4.1, h4.2, not_failed_of_eq_skipped _ _ h4.1⟩
  case priorities.reports =>
    have h4 := reports_skips backend hi
    exact ⟨.priorities, rfl, h4.1, h4.2, not_failed_of_eq_skipped _ _ h4.1⟩

/-- A backend environment whose data-acquisition stage raises and whose
other stages would succeed — used to exercise the dependency-chain
theorem. -/
def demoFailBackend : Stage → BackendOutcome Nat :=
  fun s =>
    match s with
    | .data => .raises "read error"
    | _ => .ok 0

/-- Witness for C1: with the data backend raising, the reports stage is
skipped with reason naming its predecessor and its backend is never
invoked. -/
theorem workflow_dependency_chain_skip_witness :
    stageIdx .data < stageIdx .reports ∧
      (∀ v : Nat, bundleResult demoFailBackend .data ≠ some (.success v)) ∧
      (∃ p, requiredPredecessor .reports = some p ∧
        bundleResult demoFailBackend .reports
          = some (.skipped ("missing dependency: " ++ stageName p)) ∧
        bundleInvoked demoFailBackend .reports = some false ∧
        ∀ e, bundleResult demoFailBackend .reports ≠ some (.failed e)) := by
  have hns : ∀ v : Nat, bundleResult demoFailBackend .data ≠ some (.success v) := by
    intro v hv
    have h0 : bundleResult demoFailBackend .data = some (.failed "read error") := rfl
    rw [h0] at hv
    exact StageResult.noConfusion (Option.some.inj hv)
  exact ⟨by decide, hns,
    workflow_dependency_chain_skip demoFailBackend .data .reports (by decide) hns⟩

/-- One corridor segment record, with the attribute columns of the demo
corridor created by `create_sample_corridor_data`. -/
structure SegmentRecord where
  line_id : String
  line_name : String
  voltage_kv : Int
  owner : String
  in_service_date : String
  length_km : Rat
  geometry : List (Rat × Rat)
deriving Repr, DecidableEq

/-- The parsed corridor dataset as returned by `gpd.read_file`: an
ordered sequence of segment records plus an optional CRS identifier. -/
structure GeoDataFrame where
  segments : List SegmentRecord
  crs : Option String
deriving Repr, DecidableEq

/-- The ways corridor loading fails: the path does not exist, the parser
raises, or the parsed dataset has zero segments. -/
inductive DataError : Type where
  | fileNotFound
  | parserError (e : String)
  | emptyCorridor
deriving Repr, DecidableEq

/-- The renderable map object possibly carried by the reporting result:
whether it has a `save` attribute, and whether calling `save` raises. -/
structure MapObj where
  hasSave : Bool
  saveRaises : Bool
deriving Repr, DecidableEq

/-- The reporting stage's result value as consumed by `main`: its
optional `map` entry. -/
structure ReportsValue where
  map : Option MapObj
deriving Repr, DecidableEq

/-- The results dictionary returned by `run_full_workflow` as consumed
by `main`: an optional value per stage name (`results.get(name)` is
`None` for stages that produced no value). -/
structure WorkflowResults where
  data : Option PyVal
  vegetation : Option PyVal
  risk : Option PyVal
  priorities : Option PyVal
  reports : Option ReportsValue

/-- The external environment of one `main` invocation: whether the
corridor path exists, what `gpd.read_file` does, what the orchestration
phase does, and whether each structured-document write succeeds. -/
structure MainEnv where
  corridorExists : Bool
  readFile : Except String GeoDataFrame
  workflowOutcome : Except String WorkflowResults
  writeRisk : Bool
  writeVegetation : Bool
  writePriorities : Bool

/-- The corridor load-and-validate step of `main` (existence check,
`gpd.read_file`, empty check, CRS defaulting with a warning).  Returns
the validated corridor and the warnings emitted, or the `DataError`
that aborts the run. -/
def loadCorridor (env : MainEnv) : Except DataError (GeoDataFrame × List String) :=
  if env.corridorExists = false then .error .fileNotFound
  else
    match env.readFile with
    | .error e => .error (.parserError e)
    | .ok gdf =>
        if gdf.segments.isEmpty then .error .emptyCorridor
        else if gdf.crs.isNone then
          .ok ({ gdf with crs := some "EPSG:4326" },
            ["No CRS specified, assuming EPSG:4326"])
        else .ok (gdf, [])

/-- An output artifact: a structured JSON document with its normalized
content, or the interactive HTML map. -/
inductive Artifact : Type where
  | jsonDoc (filename : String) (content : PyVal)
  | htmlMap (filename : String)

/-- Whether an artifact is a structured JSON document. -/
def Artifact.isJsonDoc : Artifact → Bool
  | .jsonDoc _ _ => true
  | .htmlMap _ => false

/-- Whether an artifact is the interactive map document. -/
def Artifact.isHtmlMap : Artifact → Bool
  | .jsonDoc _ _ => false
  | .htmlMap _ => true

/-- `save_risk_results`: normalize via `convert_numpy_to_json` and write
`risk_assessment.json`; the write may raise. -/
def save_risk_results (writeOk : Bool) (v : PyVal) : Except String Artifact :=
  if writeOk then .ok (.jsonDoc "risk_assessment.json" (convert_numpy_to_json v))
  else .error "write failed"

/-- `save_vegetation_results`: normalize and write
`vegetation_analysis.json`; the write may raise. -/
def save_vegetation_results (writeOk : Bool) (v : PyVal) : Except String Artifact :=
  if writeOk then .ok (.jsonDoc "vegetation_analysis.json" (convert_numpy_to_json v))
  else .error "write failed"

/-- `save_priority_results`: normalize and write
`maintenance_priorities.json`; the write may raise. -/
def save_priority_results (writeOk : Bool) (v : PyVal) : Except String Artifact :=
  if writeOk then .ok (.jsonDoc "maintenance_priorities.json" (convert_numpy_to_json v))
  else .error "write failed"

/-- What `save_interactive_map` does. -/
inductive SaveMapOutcome : Type where
  | savedMap
  | raisedFromSave
  | warnNoSaveMethod
  | warnNoMapObject
deriving Repr, DecidableEq

/-- `save_interactive_map`: if a map object is present and has a `save`
attribute, persist it via that method (which may itself raise);
otherwise log a warning and return normally. -/
def save_interactive_map (mapObj : Option MapObj) : SaveMapOutcome :=
  match mapObj with
  | some m =>
      if m.hasSave then
        if m.saveRaises then .raisedFromSave else .savedMap
      else .warnNoSaveMethod
  | none => .warnNoMapObject

/-- Whether the `save_interactive_map` call let an exception escape. -/
def SaveMapOutcome.raised : SaveMapOutcome → Bool
  | .raisedFromSave => true
  | _ => false

/-- The warning diagnostic emitted by `save_interactive_map`, if any. -/
def SaveMapOutcome.warning : SaveMapOutcome → Option String
  | .warnNoSaveMethod => some "Map object does not support save method"
  | .warnNoMapObject => some "No map object to save"
  | _ => none

/-- The map step of `main`: run `save_interactive_map` when the reports
entry is present.  Returns artifacts, warnings, and whether an exception
escaped to the outer handler. -/
def runExportMap (res : WorkflowResults) : List Artifact × List String × Bool :=
  match res.reports with
  | some rv =>
      match save_interactive_map rv.map with
      | .savedMap => ([.htmlMap "risk_map.html"], [], false)
      | .raisedFromSave => ([], [], true)
      | .warnNoSaveMethod => ([], ["Map object does not support save method"], false)
      | .warnNoMapObject => ([], ["No map object to save"], false)
  | none => ([], [], false)

/-- The priorities step of the export phase of `main`. -/
def runExportPriorities (env : MainEnv) (res : WorkflowResults) :
    List Artifact × List String × Bool :=
  match res.priorities with
  | some v =>
      match save_priority_results env.writePriorities v with
      | .ok a =>
          let rest := runExportMap res
          (a :: rest.1, rest.2.1, rest.2.2)
      | .error _ => ([], [], true)
  | none => runExportMap res

/-- The vegetation step of the export phase of `main`. -/
def runExportVegetation (env : MainEnv) (res : WorkflowResults) :
    List Artifact × List String × Bool :=
  match res.vegetation with
  | some v =>
      match save_vegetation_results env.writeVegetation v with
      | .ok a =>
          let rest := runExportPriorities env res
          (a :: rest.1, rest.2.1, rest.2.2)
      | .error _ => ([], [], true)
  | none => runExportPriorities env res

/-- The export phase of `main`, in source order: risk, vegetation,
priorities, then the interactive map.  All four run inside `main`'s
single `try` block, so the first raising step aborts the rest. -/
def runExport (env : MainEnv) (res : WorkflowResults) :
    List Artifact × List String × Bool :=
  match res.risk with
  | some v =>
      match save_risk_results env.writeRisk v with
      | .ok a =>
          let rest := runExportVegetation env res
          (a :: rest.1, rest.2.1, rest.2.2)
      | .error _ => ([], [], true)
  | none => runExportVegetation env res

/-- The observable outcome of one `main` invocation: the process exit
code, whether the orchestration workflow was started, the artifacts
written (in order), and the warnings logged. -/
structure MainOutcome where
  exitCode : Nat
  workflowInvoked : Bool
  artifacts : List Artifact
  warnings : List String

/-- `main` from `basic_workflow.py`: load and validate the corridor
(abort with exit code 1 on `DataError`), run the five-stage workflow
(abort with exit code 1 if it raises), then export the results —
returning exit code 1 if an export write raises and 0 otherwise. -/
def mainRun (env : MainEnv) : MainOutcome :=
  match loadCorridor env with
  | .error _ =>
      { exitCode := 1, workflowInvoked := false, artifacts := [], warnings := [] }
  | .ok (_, lw) =>
      match env.workflowOutcome with
      | .error _ =>
          { exitCode := 1, workflowInvoked := true, artifacts := [], warnings := lw }
      | .ok res =>
          let ex := runExport env res
          { exitCode := if ex.2.2 then 1 else 0, workflowInvoked := true,
            artifacts := ex.1, warnings := lw ++ ex.2.1 }

/-- C2: whenever the corridor source path does not exist, the parser
raises, or the parsed dataset has zero segments, the load step fails
with a `DataError`, the workflow is never started, no artifact is
written, and the process exits with code 1. -/
theorem load_failure_aborts_run (env : MainEnv)
    (h : env.corridorExists = false ∨ (∃ e, env.readFile = .error e) ∨
      (∃ g, env.readFile = .ok g ∧ g.segments = [])) :
    (∃ err, loadCorridor env = .error err) ∧
      (mainRun env).exitCode = 1 ∧
      (mainRun env).workflowInvoked = false ∧
      (mainRun env).artifacts = [] := by
  have hload : ∃ err, loadCorridor env = .error err := by
    rcases h with h | ⟨e, he⟩ | ⟨g, hg, hseg⟩
    · exact ⟨.fileNotFound, by simp [loadCorridor, h]⟩
    · cases hc : env.corridorExists
      · exact ⟨.fileNotFound, by simp [loadCorridor, hc]⟩
      · exact ⟨.parserError e, by simp [loadCorridor, hc, he]⟩
    · cases hc : env.corridorExists
      · exact ⟨.fileNotFound, by simp [loadCorridor, hc]⟩
      · exact ⟨.emptyCorridor, by simp [loadCorridor, hc, hg, hseg]⟩
  obtain ⟨err, herr⟩ := hload
  exact ⟨⟨err, herr⟩, by simp [mainRun, herr], by simp [mainRun, herr],
    by simp [mainRun, herr]⟩

/-- An environment whose corridor path does not exist. -/
def envMissingPath : MainEnv :=
  { corridorExists := false
    readFile := .error "No such file or directory"
    workflowOutcome := .error "not reached"
    writeRisk := true, writeVegetation := true, writePriorities := true }

/-- Witness for C2 at the missing-path environment. -/
theorem load_failure_aborts_run_witness :
    envMissingPath.corridorExists = false ∧
      ((∃ err, loadCorridor envMissingPath = .error err) ∧
        (mainRun envMissingPath).exitCode = 1 ∧
        (mainRun envMissingPath).workflowInvoked = false ∧
        (mainRun envMissingPath).artifacts = []) :=
  ⟨rfl, load_failure_aborts_run envMissingPath (Or.inl rfl)⟩

/-- C6: for every valid non-empty corridor source, `load` returns a
corridor whose CRS is defined: a source CRS is kept as-is with no
warning, and a missing CRS is replaced by the default geographic CRS
EPSG:4326 with a warning-level diagnostic (not an error), after which
the run proceeds to the workflow normally. -/
theorem load_valid_corridor_crs (env : MainEnv) (g : GeoDataFrame)
    (hex : env.corridorExists = true) (hread : env.readFile = .ok g)
    (hne : g.segments ≠ []) :
    ∃ c w, loadCorridor env = .ok (c, w) ∧
      c.crs.isSome = true ∧
      c.segments = g.segments ∧
      (∀ s, g.crs = some s → c.crs = some s ∧ w = []) ∧
      (g.crs = none →
        c.crs = some "EPSG:4326" ∧
        w = ["No CRS specified, assuming EPSG:4326"]) ∧
      (mainRun env).workflowInvoked = true := by
  have hemp : g.segments.isEmpty = false := by
    cases hg : g.segments with
    | nil => exact absurd hg hne
    | cons a l => rfl
  cases hcrs : g.crs with
  | none =>
      have hok : loadCorridor env =
          .ok ({ g with crs := some "EPSG:4326" },
            ["No CRS specified, assuming EPSG:4326"]) := by
        simp [loadCorridor, hex, hread, hemp, hcrs]
      refine ⟨_, _, hok, rfl, rfl, ?_, fun _ => ⟨rfl, rfl⟩, ?_⟩
      · intro s hs
        simp [hcrs] at hs
      · cases hwo : env.workflowOutcome <;> simp [mainRun, hok, hwo]
  | some s0 =>
      have hok : loadCorridor env = .ok (g, []) := by
        simp [loadCorridor, hex, hread, hemp, hcrs]
      refine ⟨_, _, hok, by simp [hcrs], rfl, ?_, ?_, ?_⟩
      · intro s hs
        refine ⟨?_, rfl⟩
        simp only [hcrs] at hs ⊢
        exact hs
      · intro hnone
        simp [hcrs] at hnone
      · cases hwo : env.workflowOutcome <;> simp [mainRun, hok, hwo]

/-- A concrete one-line corridor segment. -/
def sampleSegment : SegmentRecord where
  line_id := "L1"
  line_name := "Line 1"
  voltage_kv := 230
  owner := "Utility"
  in_service_date := "2019-06-01"
  length_km := 12
  geometry := [(-122, 37), (-121, 38)]

/-- A one-segment corridor source that carries no CRS. -/
def gdfNoCrs : GeoDataFrame where
  segments := [sampleSegment]
  crs := none

/-- An environment whose corridor source parses to `gdfNoCrs`. -/
def envNoCrs : MainEnv :=
  { corridorExists := true
    readFile := .ok gdfNoCrs
    workflowOutcome := .error "backend unavailable"
    writeRisk := true, writeVegetation := true, writePriorities := true }

/-- C9: when the reporting map object is absent or lacks a `save`
method, `save_interactive_map` emits a warning diagnostic, no exception
escapes, and the export phase's success is unaffected; when the map
object has a `save` method that returns normally, the map is persisted
via that method. -/
theorem save_interactive_map_contract (m : Option MapObj) :
    ((m = none ∨ ∃ o, m = some o ∧ o.hasSave = false) →
      (save_interactive_map m).raised = false ∧
        (∃ w, (save_interactive_map m).warning = some w) ∧
        (∀ (res : WorkflowResults) (rv : ReportsValue),
          res.reports = some rv → rv.map = m →
            (runExportMap res).2.2 = false)) ∧
    (∀ o, m = some o → o.hasSave = true → o.saveRaises = false →
      save_interactive_map m = .savedMap) := by
  constructor
  · intro h
    have hsm : save_interactive_map m = .warnNoMapObject ∨
        save_interactive_map m = .warnNoSaveMethod := by
      rcases h with h | ⟨o, ho, hs⟩
      · subst h; exact Or.inl rfl
      · subst ho; right; simp [save_interactive_map, hs]
    refine ⟨?_, ?_, ?_⟩
    · rcases hsm with h1 | h1 <;> simp [h1, SaveMapOutcome.raised]
    · rcases hsm with h1 | h1
      · exact ⟨"No map object to save", by simp [h1, SaveMapOutcome.warning]⟩
      · exact ⟨"Map object does not support save method",
          by simp [h1, SaveMapOutcome.warning]⟩
    · intro res rv hrep hm
      rcases hsm with h1 | h1 <;> simp [runExportMap, hrep, hm, h1]
  · intro o ho hs hr
    subst ho
    simp [save_interactive_map, hs, hr]

/-- Witness for C9: a present map object without a `save` method yields
a warning and no escaping exception. -/
theorem save_interactive_map_contract_witness :
    (save_interactive_map (some { hasSave := false, saveRaises := false })).raised
        = false ∧
      ∃ w, (save_interactive_map
        (some { hasSave := false, saveRaises := false })).warning = some w :=
  ⟨((save_interactive_map_contract
      (some { hasSave := false, saveRaises := false })).1
      (Or.inr ⟨_, rfl, rfl⟩)).1,
   ((save_interactive_map_contract
      (some { hasSave := false, saveRaises := false })).1
      (Or.inr ⟨_, rfl, rfl⟩)).2.1⟩

/-- Witness for C6 at a concrete CRS-less one-segment source. -/
theorem load_valid_corridor_crs_witness :
    envNoCrs.corridorExists = true ∧ envNoCrs.readFile = .ok gdfNoCrs ∧
      gdfNoCrs.segments ≠ [] ∧
      (∃ c w, loadCorridor envNoCrs = .ok (c, w) ∧
        c.crs.isSome = true ∧
        c.segments = gdfNoCrs.segments ∧
        (∀ s, gdfNoCrs.crs = some s → c.crs = some s ∧ w = []) ∧
        (gdfNoCrs.crs = none →
          c.crs = some "EPSG:4326" ∧
          w = ["No CRS specified, assuming EPSG:4326"]) ∧
        (mainRun envNoCrs).workflowInvoked = true) :=
  ⟨rfl, rfl, by simp [gdfNoCrs],
    load_valid_corridor_crs envNoCrs gdfNoCrs rfl rfl (by simp [gdfNoCrs])⟩

/-- The filename of an artifact. -/
def Artifact.filename : Artifact → String
  | .jsonDoc f _ => f
  | .htmlMap f => f

/-- The demo corridor segment created by `create_sample_corridor_data`
(floating-point coordinates and the derived length appear as exact
rationals). -/
def demoSegment : SegmentRecord where
  line_id := "DEMO_LINE_001"
  line_name := "Demo Transmission Line"
  voltage_kv := 500
  owner := "Demo Utility Company"
  in_service_date := "2020-01-01"
  length_km := 63/10
  geometry := [(-1224194/10000, 377749/10000), (-1224094/10000, 377849/10000),
    (-1223994/10000, 377949/10000), (-1223894/10000, 378049/10000),
    (-1223794/10000, 378149/10000)]

/-- The demo one-segment corridor dataset, CRS EPSG:4326. -/
def demoCorridorGdf : GeoDataFrame where
  segments := [demoSegment]
  crs := some "EPSG:4326"

/-- A results dictionary in which all five stages produced a value and
the reporting result carries a saveable map object. -/
def resAllSuccess : WorkflowResults where
  data := some (.pydict [("satellite_tiles", .pyint 4)])
  vegetation := some (.pydict [("ndvi_mean", .npfloat (87/100))])
  risk := some (.pydict [("risk_score", .npint 3)])
  priorities := some (.pylist [.pyint 1])
  reports := some { map := some { hasSave := true, saveRaises := false } }

/-- An environment in which loading, all five stages, and every write
succeed. -/
def envAllSuccess : MainEnv where
  corridorExists := true
  readFile := .ok demoCorridorGdf
  workflowOutcome := .ok resAllSuccess
  writeRisk := true
  writeVegetation := true
  writePriorities := true

/-- Counterexample to C4: on a one-segment corridor where all five
stages succeed and every write succeeds, only three structured
documents are written (risk, vegetation, priorities) plus the map
document — not five, and none for the successful data stage. -/
theorem export_artifact_count_counterexample :
    (∃ res, envAllSuccess.workflowOutcome = .ok res ∧
      res.data.isSome = true ∧ res.vegetation.isSome = true ∧
      res.risk.isSome = true ∧ res.priorities.isSome = true ∧
      res.reports.isSome = true) ∧
    (mainRun envAllSuccess).exitCode = 0 ∧
    (mainRun envAllSuccess).artifacts.map Artifact.filename =
      ["risk_assessment.json", "vegetation_analysis.json",
       "maintenance_priorities.json", "risk_map.html"] ∧
    ((mainRun envAllSuccess).artifacts.filter Artifact.isJsonDoc).length = 3 ∧
    ¬ ((mainRun envAllSuccess).artifacts.filter Artifact.isJsonDoc).length = 4 ∧
    ¬ ((mainRun envAllSuccess).artifacts.filter Artifact.isJsonDoc).length = 5 ∧
    ((mainRun envAllSuccess).artifacts.filter Artifact.isHtmlMap).length = 1 :=
  ⟨⟨resAllSuccess, rfl, rfl, rfl, rfl, rfl, rfl⟩, rfl, rfl, rfl,
    by decide, by decide, rfl⟩

/-- C4 amended: when loading and orchestration complete and all writes
succeed (and the map save does not raise), the exporter writes one
structured document for each present stage value among risk, vegetation
and priorities — in that order, none for the data stage — followed by
the interactive-map document when the reporting result yields a saved
map, and the exit code is 0. -/
theorem export_artifacts_amended (env : MainEnv) (res : WorkflowResults)
    (hw : env.workflowOutcome = .ok res)
    (hload : ∃ c w, loadCorridor env = .ok (c, w))
    (hwr : env.writeRisk = true) (hwv : env.writeVegetation = true)
    (hwp : env.writePriorities = true)
    (hmap : ∀ rv, res.reports = some rv →
      save_interactive_map rv.map ≠ .raisedFromSave) :
    (mainRun env).exitCode = 0 ∧
    (mainRun env).artifacts =
      ((match res.risk with
        | some v => [Artifact.jsonDoc "risk_assessment.json" (convert_numpy_to_json v)]
        | none => []) ++
       (match res.vegetation with
        | some v => [Artifact.jsonDoc "vegetation_analysis.json" (convert_numpy_to_json v)]
        | none => []) ++
       (match res.priorities with
        | some v => [Artifact.jsonDoc "maintenance_priorities.json" (convert_numpy_to_json v)]
        | none => []) ++
       (match res.reports with
        | some rv =>
            if save_interactive_map rv.map = .savedMap then
              [Artifact.htmlMap "risk_map.html"]
            else []
        | none => [])) := by
  obtain ⟨c, w, hcw⟩ := hload
  rcases hrep : res.reports with _ | rv
  · rcases hrisk : res.risk with _ | v1 <;>
      rcases hveg : res.vegetation with _ | v2 <;>
        rcases hpri : res.priorities with _ | v3 <;>
      simp [mainRun, hcw, hw, runExport, runExportVegetation,
        runExportPriorities, runExportMap, save_risk_results,
        save_vegetation_results, save_priority_results,
        hwr, hwv, hwp, hrisk, hveg, hpri, hrep]
  · have hnr := hmap rv hrep
    rcases hsm : save_interactive_map rv.map
    case raisedFromSave => exact absurd hsm hnr
    all_goals
      rcases hrisk : res.risk with _ | v1 <;>
        rcases hveg : res.vegetation with _ | v2 <;>
          rcases hpri : res.priorities with _ | v3 <;>
        simp [mainRun, hcw, hw, runExport, runExportVegetation,
          runExportPriorities, runExportMap, save_risk_results,
          save_vegetation_results, save_priority_results,
          hwr, hwv, hwp, hrisk, hveg, hpri, hrep, hsm]

/-- Witness for C4 amended: the all-success environment yields the three
structured documents plus the map, and exit code 0. -/
theorem export_artifacts_amended_witness :
    (mainRun envAllSuccess).exitCode = 0 ∧
      (mainRun envAllSuccess).artifacts =
        [Artifact.jsonDoc "risk_assessment.json"
           (convert_numpy_to_json (.pydict [("risk_score", .npint 3)])),
         Artifact.jsonDoc "vegetation_analysis.json"
           (convert_numpy_to_json (.pydict [("ndvi_mean", .npfloat (87/100))])),
         Artifact.jsonDoc "maintenance_priorities.json"
           (convert_numpy_to_json (.pylist [.pyint 1])),
         Artifact.htmlMap "risk_map.html"] := by
  have h := export_artifacts_amended envAllSuccess resAllSuccess rfl
    ⟨demoCorridorGdf, [], rfl⟩ rfl rfl rfl
    (by
      intro rv hrv
      have : some { map := some { hasSave := true, saveRaises := false } }
          = some rv := hrv
      cases this
      decide)
  exact ⟨h.1, h.2.trans rfl⟩

/-- The all-success environment except that writing the risk document
fails. -/
def envRiskWriteFails : MainEnv where
  corridorExists := true
  readFile := .ok demoCorridorGdf
  workflowOutcome := .ok resAllSuccess
  writeRisk := false
  writeVegetation := true
  writePriorities := true

/-- Counterexample to C5: when the first artifact write (the risk
document) fails, the remaining artifacts are NOT written even though
their stage values are present and their writes would succeed, and the
process exits with code 1, not 0. -/
theorem export_failure_counterexample :
    (∃ res, envRiskWriteFails.workflowOutcome = .ok res ∧
      res.vegetation.isSome = true ∧ res.priorities.isSome = true) ∧
    envRiskWriteFails.writeVegetation = true ∧
    envRiskWriteFails.writePriorities = true ∧
    (mainRun envRiskWriteFails).artifacts = [] ∧
    (mainRun envRiskWriteFails).exitCode = 1 ∧
    ¬ (mainRun envRiskWriteFails).exitCode = 0 :=
  ⟨⟨resAllSuccess, rfl, rfl, rfl⟩, rfl, rfl, rfl, rfl, by decide⟩

/-- C5 amended: export is not independent per bundle entry — the first
failing write raises out of `main`'s try block, so later artifacts are
not written and the process exits with code 1; artifacts already
written before the failure remain. -/
theorem export_failure_aborts (env : MainEnv) (res : WorkflowResults)
    (hw : env.workflowOutcome = .ok res)
    (hload : ∃ c w, loadCorridor env = .ok (c, w)) :
    (∀ v, res.risk = some v → env.writeRisk = false →
      (mainRun env).exitCode = 1 ∧ (mainRun env).artifacts = []) ∧
    (∀ v u, res.risk = some v → env.writeRisk = true →
      res.vegetation = some u → env.writeVegetation = false →
      (mainRun env).exitCode = 1 ∧
      (mainRun env).artifacts =
        [Artifact.jsonDoc "risk_assessment.json" (convert_numpy_to_json v)]) := by
  obtain ⟨c, w, hcw⟩ := hload
  constructor
  · intro v hv hwr
    constructor <;>
      simp [mainRun, hcw, hw, runExport, save_risk_results, hv, hwr]
  · intro v u hv hwr hu hwv
    constructor <;>
      simp [mainRun, hcw, hw, runExport, runExportVegetation,
        save_risk_results, save_vegetation_results, hv, hwr, hu, hwv]

/-- Witness for C5 amended: the failing risk write aborts the whole
export. -/
theorem export_failure_aborts_witness :
    resAllSuccess.risk = some (.pydict [("risk_score", .npint 3)]) ∧
      envRiskWriteFails.writeRisk = false ∧
      (mainRun envRiskWriteFails).exitCode = 1 ∧
      (mainRun envRiskWriteFails).artifacts = [] :=
  ⟨rfl, rfl,
    ((export_failure_aborts envRiskWriteFails resAllSuccess rfl
        ⟨demoCorridorGdf, [], rfl⟩).1
      (.pydict [("risk_score", .npint 3)]) rfl rfl).1,
    ((export_failure_aborts envRiskWriteFails resAllSuccess rfl
        ⟨demoCorridorGdf, [], rfl⟩).1
      (.pydict [("risk_score", .npint 3)]) rfl rfl).2⟩

end RowRisk
